import Mathlib

/-!
Shallow embedding of the tracking-allocator repository (src/token.rs and
src/allocator.rs) and verification of its specification claims.

Conventions of the embedding:
* The process-wide registry static `TOKEN_REGISTRY : ArcSwapOption<TokenRegistry>`
  is an explicit `Option TokenRegistry` value threaded through the operations;
  the `im::Vector` is a Lean `List`.
* The thread-local `CURRENT_ALLOCATION_TOKEN : RefCell<Option<usize>>` is an
  explicit `Option Nat` value.
* A Rust panic is modelled as the `none` branch of an `Option` result.
* Machine pointers and sizes are `Nat`; the target is 64-bit, so
  `size_of::<usize>() = 8` and `isize::MAX = 2 ^ 63 - 1`.
-/

/-- token.rs: `type GroupTags = &'static [(&'static str, &'static str)]`.
The `'static` promotion in `acquire_with_tags` preserves string contents, so a
tag set is simply a list of key/value string pairs. -/
abbrev GroupTags := List (String × String)

/-- token.rs: `type TokenRegistry = Vector<Option<GroupTags>>` — maps group id
(the index) to the optional tag set of that group. -/
abbrev TokenRegistry := List (Option GroupTags)

namespace AllocationGroupToken

/-- token.rs `AllocationGroupToken::acquire`: the rcu loop reads the current
registry (`unwrap_or_default` when the static still holds `None`), records
`id := registry.len()`, pushes an untagged (`None`) entry at the back and
installs the grown registry. Returns the id together with the new registry
state. The rcu retry loop serialises concurrent appends, so a single
read-append-install step is its observable effect. -/
def acquire (reg : Option TokenRegistry) : Nat × Option TokenRegistry :=
  let r := reg.getD []
  (r.length, some (r ++ [none]))

/-- token.rs `AllocationGroupToken::acquire_with_tags`: identical rcu append,
but the pushed entry is `Some tags` (the tags having been promoted to static
storage, which preserves their contents). -/
def acquire_with_tags (tags : GroupTags) (reg : Option TokenRegistry) :
    Nat × Option TokenRegistry :=
  let r := reg.getD []
  (r.length, some (r ++ [some tags]))

/-- A finite sequence of registry acquisitions, each element describing one
call: `none` stands for `acquire()` and `some tags` for
`acquire_with_tags(tags)`. Returns the ids in call order and the final
registry state. -/
def acquire_seq : Option TokenRegistry → List (Option GroupTags) →
    List Nat × Option TokenRegistry
  | reg, [] => ([], reg)
  | reg, e :: es =>
    let step := match e with
      | none => acquire reg
      | some tags => acquire_with_tags tags reg
    let rest := acquire_seq step.2 es
    (step.1 :: rest.1, rest.2)

end AllocationGroupToken

/-- token.rs `AllocationGroupMetadata`: the id of the active group and the
tags found for it in the registry. -/
structure AllocationGroupMetadata where
  id : Nat
  tags : Option GroupTags
deriving DecidableEq, Repr

/-- token.rs `get_active_allocation_group`: reads the thread-local current
token; when one is set, loads the registry (the `expect` on a missing registry
is a panic, modelled by the outer `none`) and fetches the tags by
`registry.get(id).copied().flatten()`. -/
def get_active_allocation_group (cur : Option Nat) (reg : Option TokenRegistry) :
    Option (Option AllocationGroupMetadata) :=
  match cur with
  | none => some none
  | some id =>
    match reg with
    | none => none
    | some r => some (some ⟨id, (r[id]?).join⟩)

/-- token.rs `GuardState`: `Idle(usize)` holds the group id while the guard is
not active; `Active(Option<usize>)` holds the previously active group id (if
any) while the guard is active. -/
inductive GuardState where
  | Idle (id : Nat)
  | Active (previous : Option Nat)
deriving DecidableEq, Repr

namespace GuardState

/-- token.rs `GuardState::transition_to_active`: from `Idle(id)`, saves the
thread-local current token as `previous` and replaces it with `Some(id)`;
from `Active`, panics ("transitioning active->active is invalid"), modelled
as `none`. Returns the new guard state and the new thread-local value. -/
def transition_to_active : GuardState → Option Nat → Option (GuardState × Option Nat)
  | .Idle id, cur => some (.Active cur, some id)
  | .Active _, _ => none

/-- token.rs `GuardState::transition_to_idle`: from `Idle`, panics
("transitioning idle->idle is invalid"); from `Active(previous)`, replaces the
thread-local current token with `previous` — panicking (the `expect`) if the
thread-local was empty — and returns the new state `Idle(current)`, the
restored thread-local value, and the id `current` that was active. -/
def transition_to_idle : GuardState → Option Nat → Option (GuardState × Option Nat × Nat)
  | .Idle _, _ => none
  | .Active previous, cur =>
    match cur with
    | none => none
    | some c => some (.Idle c, previous, c)

end GuardState

namespace AllocationGuard

/-- token.rs `AllocationGuard::enter` (reached from
`AllocationGroupToken::enter`): builds `GuardState::idle(token.0)` and runs
`transition_to_active` on it. -/
def guard_enter (token_id : Nat) (cur : Option Nat) : Option (GuardState × Option Nat) :=
  GuardState.transition_to_active (.Idle token_id) cur

/-- token.rs `AllocationGuard::exit_inner`: runs `transition_to_idle` and
wraps the returned id in `AllocationGroupToken(current)`. The `Nat` in the
result is the id held by the reconstituted token. -/
def exit_inner (st : GuardState) (cur : Option Nat) :
    Option (GuardState × Option Nat × Nat) :=
  GuardState.transition_to_idle st cur

/-- token.rs `AllocationGuard::exit` takes `self` by value and calls
`exit_inner`; when `exit` returns, `self` goes out of scope and its `Drop`
implementation runs `exit_inner` a second time on the already-mutated state.
This definition is that composite: the first `transition_to_idle` (the manual
exit) followed by the one performed by `Drop`. The result carries the
thread-local value after both steps and the id of the token `exit` computed;
`none` models a panic in either step. -/
def exit_then_drop (st : GuardState) (cur : Option Nat) : Option (Option Nat × Nat) :=
  match GuardState.transition_to_idle st cur with
  | none => none
  | some (st2, cur2, id) =>
    match GuardState.transition_to_idle st2 cur2 with
    | none => none
    | some (_, cur3, _) => some (cur3, id)

end AllocationGuard

/-! The allocator shim (src/allocator.rs). -/

/-- `size_of::<usize>()` on the 64-bit target; `HEADER_LAYOUT = Layout::new::<usize>()`
has this size and alignment. -/
def usize_size : Nat := 8

/-- `isize::MAX` on the 64-bit target, the bound enforced by
`Layout::from_size_align`. -/
def isize_max : Nat := 2 ^ 63 - 1

/-- Rounds `n` up to the next multiple of `align`. `Layout` guarantees its
alignment is a power of two, under which the mask computation used by
`Layout::padding_needed_for` and `Layout::pad_to_align` equals this
arithmetic rounding. -/
def round_up (n align : Nat) : Nat := (n + align - 1) / align * align

/-- `Layout::padding_needed_for(align)` applied to a layout of size `size`. -/
def padding_needed_for (size align : Nat) : Nat := round_up size align - size

/-- allocator.rs `get_wrapped_layout`: `HEADER_LAYOUT.extend(object_layout)`
followed by `pad_to_align()`. `extend` places the object region at
`offset_to_object = header size + padding needed to reach the object's
alignment`, sets the combined alignment to the max of both alignments, and
errors (the source's `expect`, modelled as `none`) when
`Layout::from_size_align` rejects the combined size; `pad_to_align` rounds
the final size up to the combined alignment. Returns
`((wrapped size, wrapped align), offset_to_object)`. -/
def get_wrapped_layout (obj_size obj_align : Nat) : Option ((Nat × Nat) × Nat) :=
  let offset_to_object := usize_size + padding_needed_for usize_size obj_align
  let new_align := max usize_size obj_align
  let new_size := offset_to_object + obj_size
  if new_size ≤ isize_max - (new_align - 1) then
    some ((round_up new_size new_align, new_align), offset_to_object)
  else
    none

/-- The externally observable effects of `Allocator::dealloc`, in program
order: `free` is the call to the backing allocator
(`self.inner.dealloc(actual_ptr, wrapped_layout)`), carrying the augmented
pointer and layout; `deallocated` is the tracker callback
`tracker.deallocated(object_addr, object_size, wrapped_size,
source_group_id, current_group_id)`. -/
inductive DeallocEvent where
  | free (addr size align : Nat)
  | deallocated (addr obj_size wrapped_size source_group : Nat)
      (current_group : Option Nat)
deriving DecidableEq, Repr

/-- Whether an event is a tracker callback rather than the backing free. -/
def DeallocEvent.is_tracker_event : DeallocEvent → Bool
  | .deallocated .. => true
  | .free .. => false

/-- Modelled from the spec: `AllocationGroupId::from_raw` is referenced by
src/allocator.rs but its definition is not under src/. The allocation header
is zero-initialized, `0` being the "unattributed" sentinel, so a raw header
value of `0` yields no group id and any other value is the stored group id. -/
def AllocationGroupId.from_raw (raw : Nat) : Option Nat :=
  if raw = 0 then none else some raw

/-- Modelled from the spec: `try_with_suspended_allocation_group` is called
by src/allocator.rs but its definition is not under src/. Per the spec's
suspension contract, it executes the closure with the thread's currently
active group identifier (or none), after marking the thread suspended for
the closure's duration, and is a no-op if tracking is already suspended on
the thread. -/
def try_with_suspended_allocation_group (suspended : Bool) (cur : Option Nat)
    (f : Option Nat → List DeallocEvent) : List DeallocEvent :=
  if suspended then [] else f cur

/-- allocator.rs `Allocator::dealloc` as a trace of observable effects:
regenerate the wrapped layout (`none` models the layout-overflow panic);
recover `actual_ptr = object_ptr - offset_to_object` and read the raw group
id stored in the header (here the parameter `raw_group_id`); free the
augmented region via the backing allocator; then, if a global tracker is
registered (`tracker_registered`) and the stored id is not the sentinel
(`AllocationGroupId::from_raw`), run the suspension-aware callback passing
the stored source group and the thread's current group. -/
def dealloc (object_ptr obj_size obj_align raw_group_id : Nat)
    (tracker_registered suspended : Bool) (cur : Option Nat) :
    Option (List DeallocEvent) :=
  match get_wrapped_layout obj_size obj_align with
  | none => none
  | some ((wrapped_size, wrapped_align), offset_to_object) =>
    some (DeallocEvent.free (object_ptr - offset_to_object) wrapped_size wrapped_align ::
      (if tracker_registered then
        match AllocationGroupId.from_raw raw_group_id with
        | some source_group_id =>
          try_with_suspended_allocation_group suspended cur (fun current_group_id =>
            [DeallocEvent.deallocated object_ptr obj_size wrapped_size source_group_id
              current_group_id])
        | none => []
      else []))

/-! Helper lemmas. -/

/-- Running a sequence of acquisitions from an installed registry `r` yields
the consecutive ids `r.length, r.length + 1, ...` and appends the entries. -/
theorem acquire_seq_some (r : TokenRegistry) (es : List (Option GroupTags)) :
    AllocationGroupToken.acquire_seq (some r) es
      = (List.range' r.length es.length, some (r ++ es)) := by
  induction es generalizing r with
  | nil => simp [AllocationGroupToken.acquire_seq]
  | cons e es ih =>
    cases e with
    | none =>
      simp [AllocationGroupToken.acquire_seq, AllocationGroupToken.acquire, ih,
        List.range'_succ]
    | some t =>
      simp [AllocationGroupToken.acquire_seq, AllocationGroupToken.acquire_with_tags, ih,
        List.range'_succ]

/-- Rounding up does not decrease the value. -/
theorem round_up_ge (n align : Nat) (h : 0 < align) : n ≤ round_up n align := by
  have hd := Nat.div_add_mod (n + align - 1) align
  have hm : (n + align - 1) % align < align := Nat.mod_lt _ h
  unfold round_up
  rw [Nat.mul_comm]
  omega

/-- The rounded-up value is a multiple of the alignment. -/
theorem round_up_dvd (n align : Nat) : align ∣ round_up n align :=
  dvd_mul_left _ _

/-- A power of two divides the max of itself and `usize_size` (which is
`2 ^ 3`). -/
theorem pow_two_dvd_max_usize (k : Nat) : (2 ^ k : Nat) ∣ max usize_size (2 ^ k) := by
  rcases Nat.le_total (2 ^ k) usize_size with hle | hle
  · rw [Nat.max_eq_left hle]
    have hk : k ≤ 3 := by
      by_contra hcon
      push_neg at hcon
      have hbig : (2 : Nat) ^ 4 ≤ 2 ^ k := Nat.pow_le_pow_right (by norm_num) hcon
      norm_num at hbig
      simp only [usize_size] at hle
      omega
    simp only [usize_size]
    exact (by norm_num : (2 : Nat) ^ 3 = 8) ▸ pow_dvd_pow 2 hk
  · rw [Nat.max_eq_right hle]

/-! Claim theorems. -/

/-- C1: the claim says neither `acquire` nor `acquire_with_tags` ever returns
identifier `0`; on this code the very first `acquire` (registry static still
`None`) returns `registry.len() = 0`, so `0` is a valid assigned identifier,
contradicting the reserved-sentinel contract that src/allocator.rs relies on
through `AllocationGroupId::from_raw`. This theorem evaluates the code at
that failing input. -/
theorem first_acquire_returns_zero : (AllocationGroupToken.acquire none).1 = 0 := rfl

/-- C3: starting from the empty registry, any sequence of `N` calls mixing
`acquire()` and `acquire_with_tags()` (the list records each call's entry)
returns exactly the identifiers `0, 1, ..., N - 1` in order — no duplicate,
no skipped index — and the registry length afterwards is `N`. -/
theorem registry_density_uniqueness (es : List (Option GroupTags)) :
    (AllocationGroupToken.acquire_seq none es).1 = List.range es.length ∧
      ((AllocationGroupToken.acquire_seq none es).2.getD []).length = es.length := by
  cases es with
  | nil => simp [AllocationGroupToken.acquire_seq]
  | cons e es =>
    have hfirst : ∀ r' : Option TokenRegistry,
        AllocationGroupToken.acquire_seq none (e :: es)
          = ((match e with
              | none => AllocationGroupToken.acquire none
              | some t => AllocationGroupToken.acquire_with_tags t none).1 ::
              (AllocationGroupToken.acquire_seq (some [e]) es).1,
            (AllocationGroupToken.acquire_seq (some [e]) es).2) := by
      intro _
      cases e <;>
        simp [AllocationGroupToken.acquire_seq, AllocationGroupToken.acquire,
          AllocationGroupToken.acquire_with_tags]
    rw [hfirst none, acquire_seq_some]
    constructor
    · cases e <;>
        simp [AllocationGroupToken.acquire, AllocationGroupToken.acquire_with_tags,
          List.range_eq_range', List.range'_succ]
    · simp

/-- C4: after `acquire_with_tags(T)` returns identifier `id`, looking `id` up
as `get_active_allocation_group` does yields exactly the tag set `T`, and it
still does after any further sequence of `acquire`/`acquire_with_tags`
calls. -/
theorem tag_roundtrip (reg : Option TokenRegistry) (tags : GroupTags)
    (rest : List (Option GroupTags)) :
    get_active_allocation_group
        (some (AllocationGroupToken.acquire_with_tags tags reg).1)
        ((AllocationGroupToken.acquire_seq
          (AllocationGroupToken.acquire_with_tags tags reg).2 rest).2)
      = some (some ⟨(AllocationGroupToken.acquire_with_tags tags reg).1, some tags⟩) := by
  have hidx : ((reg.getD [] ++ [some tags]) ++ rest)[(reg.getD []).length]?
      = some (some tags) := by
    rw [List.append_assoc, List.getElem?_append_right (Nat.le_refl _)]
    simp
  simp only [AllocationGroupToken.acquire_with_tags, acquire_seq_some,
    get_active_allocation_group]
  rw [hidx]
  rfl

/-- C2: the claim says a manual `AllocationGuard::exit` followed by the
guard's `Drop` consumes the state transition exactly once with no failure.
On this code, `exit` takes `self` by value without `mem::forget`, so when
`exit` returns, `Drop` runs `exit_inner` again on the now-`Idle` state and
`transition_to_idle` panics ("transitioning idle->idle is invalid"). This
theorem evaluates the failing input — a guard entered for group id 1 on a
thread with no previously active group (state `Active(None)`, thread-local
`Some(1)`) — and shows the exit-then-drop composite panics (`none`). -/
theorem exit_then_drop_panics :
    AllocationGuard.exit_then_drop (.Active none) (some 1) = none := rfl

/-- C5: LIFO restore of the guard stack. On one thread with no active group,
entering a token for group `a` then a token for group `b` makes `b` the
active group; exiting the `b` guard (via the single `transition_to_idle` of
`exit_inner`) restores `a` as the active group and returns token `b`;
exiting the `a` guard afterwards restores no group active and returns token
`a`. The tuple records (active after both enters, id returned by exiting
`b`, active after exiting `b`, id returned by exiting `a`, active after
exiting `a`). -/
theorem guard_stack_lifo_restore (a b : Nat) :
    (do
      let s1 ← AllocationGuard.guard_enter a none
      let s2 ← AllocationGuard.guard_enter b s1.2
      let e1 ← AllocationGuard.exit_inner s2.1 s2.2
      let e2 ← AllocationGuard.exit_inner s1.1 e1.2.1
      pure (s2.2, e1.2.2, e1.2.1, e2.2.2, e2.2.1))
      = some (some b, b, some a, a, none) := rfl

/-- C6: enter/exit round-trip on the token identifier. For every token id
`i` and every prior thread state `cur`, entering the token and then exiting
the resulting guard (no other activation intervening) yields a token holding
the same id `i`, the guard state `Idle i`, and the thread-local restored to
`cur`. -/
theorem enter_exit_roundtrip (i : Nat) (cur : Option Nat) :
    (do
      let s ← AllocationGuard.guard_enter i cur
      AllocationGuard.exit_inner s.1 s.2)
      = some (.Idle i, cur, i) := rfl

/-- C7: invalid transitions are fatal. `transition_to_active` on a state
already `Active` panics, and `transition_to_idle` on a state already `Idle`
panics (both modelled as `none`); neither returns normally. -/
theorem invalid_transitions_panic (p : Option Nat) (i : Nat) (cur cur2 : Option Nat) :
    GuardState.transition_to_active (.Active p) cur = none ∧
      GuardState.transition_to_idle (.Idle i) cur2 = none :=
  ⟨rfl, rfl⟩

/-- C8: layout invariant. For every requested layout (size `s`, alignment
`a`, a power of two as `Layout` guarantees) for which `get_wrapped_layout`
does not overflow, the wrapped size is at least the header size
(`size_of::<usize>()`) plus the requested size, and for any augmented base
pointer satisfying the wrapped alignment (as the backing allocator
guarantees), the object pointer `base + offset_to_object` satisfies the
requested alignment exactly. -/
theorem wrapped_layout_invariant (s a k : Nat) (ha : a = 2 ^ k)
    (wsize walign off : Nat)
    (h : get_wrapped_layout s a = some ((wsize, walign), off)) :
    usize_size + s ≤ wsize ∧ ∀ base : Nat, walign ∣ base → a ∣ (base + off) := by
  have hapos : 0 < a := by
    rw [ha]; exact pow_pos (by norm_num) k
  simp only [get_wrapped_layout] at h
  split at h
  · simp only [Option.some.injEq, Prod.mk.injEq] at h
    obtain ⟨⟨hsz, hal⟩, hoff⟩ := h
    have hoff0 : usize_size + padding_needed_for usize_size a
        = round_up usize_size a := by
      have hge := round_up_ge usize_size a hapos
      unfold padding_needed_for
      omega
    constructor
    · have hge2 := round_up_ge (usize_size + padding_needed_for usize_size a + s)
        (max usize_size a) (Nat.lt_of_lt_of_le hapos (Nat.le_max_right _ _))
      omega
    · intro base hbase
      have hdvd_off : a ∣ off := by
        rw [← hoff, hoff0]; exact round_up_dvd _ _
      have hdvd_wal : a ∣ walign := by
        rw [← hal, ha]; exact pow_two_dvd_max_usize k
      exact Nat.dvd_add (hdvd_wal.trans hbase) hdvd_off
  · simp at h

/-- Witness for C8 at the concrete request (size 5, alignment 4):
`get_wrapped_layout 5 4 = some ((16, 8), 8)`, the wrapped size 16 dominates
header + 5, and the object pointer for the 8-aligned base 16 is 4-aligned. -/
theorem wrapped_layout_invariant_witness :
    usize_size + 5 ≤ 16 ∧ (4 : Nat) ∣ (16 + 8) := by
  have h := wrapped_layout_invariant 5 4 2 (by norm_num) 16 8 8 (by rfl)
  exact ⟨h.1, h.2 16 (by norm_num)⟩

/-- C9: deallocation ordering. Whenever `Allocator::dealloc` runs to
completion, its trace starts with the backing allocator's free of the
augmented region, and everything after it is a tracker callback — so the
free precedes any `deallocated` callback, and it happens even when no
callback follows. -/
theorem dealloc_frees_before_tracking (ptr s a raw : Nat) (tr susp : Bool)
    (cur : Option Nat) (evs : List DeallocEvent)
    (h : dealloc ptr s a raw tr susp cur = some evs) :
    ∃ p sz al rest, evs = DeallocEvent.free p sz al :: rest ∧
      ∀ e ∈ rest, e.is_tracker_event = true := by
  unfold dealloc at h
  rcases hw : get_wrapped_layout s a with _ | ⟨⟨wsz, wal⟩, off⟩
  · rw [hw] at h
    simp at h
  · rw [hw] at h
    have hevs := Option.some.inj h
    refine ⟨ptr - off, wsz, wal, _, hevs.symm, ?_⟩
    intro e he
    by_cases htr : tr
    · simp only [htr, if_true] at he
      unfold AllocationGroupId.from_raw at he
      by_cases hraw : raw = 0
      · simp [hraw] at he
      · simp only [hraw, if_false, ite_false] at he
        unfold try_with_suspended_allocation_group at he
        by_cases hs : susp
        · simp [hs] at he
        · simp [hs] at he
          rw [he]
          rfl
    · simp [htr] at he

/-- Witness for C9 at a concrete call (object pointer 16, layout (5, 4),
header raw id 0, no tracker): the trace is exactly the backing free. -/
theorem dealloc_frees_before_tracking_witness :
    ∃ p sz al rest, [DeallocEvent.free 8 16 8] = DeallocEvent.free p sz al :: rest ∧
      ∀ e ∈ rest, e.is_tracker_event = true :=
  dealloc_frees_before_tracking 16 5 4 0 false false none
    [DeallocEvent.free 8 16 8] (by rfl)

/-- C10: deallocation tracking condition. If a `deallocated` callback occurs
in a `dealloc` trace, then a global tracker was registered, the group id
stored in the allocation header was not the unattributed sentinel `0`, and
tracking was not suspended on the thread; moreover the callback received the
stored header value as the source group and the thread's currently active
group as the current group (plus the object address and requested size). -/
theorem dealloc_tracking_condition (ptr s a raw : Nat) (tr susp : Bool)
    (cur : Option Nat) (evs : List DeallocEvent)
    (h : dealloc ptr s a raw tr susp cur = some evs)
    (addr os ws src : Nat) (cg : Option Nat)
    (hmem : DeallocEvent.deallocated addr os ws src cg ∈ evs) :
    tr = true ∧ raw ≠ 0 ∧ susp = false ∧ src = raw ∧ cg = cur ∧
      addr = ptr ∧ os = s := by
  unfold dealloc at h
  rcases hw : get_wrapped_layout s a with _ | ⟨⟨wsz, wal⟩, off⟩
  · rw [hw] at h
    simp at h
  · rw [hw] at h
    have hevs := Option.some.inj h
    rw [← hevs] at hmem
    simp only [List.mem_cons] at hmem
    rcases hmem with heq | hmem
    · cases heq
    · by_cases htr : tr
      · simp only [htr, if_true] at hmem
        unfold AllocationGroupId.from_raw at hmem
        by_cases hraw : raw = 0
        · simp [hraw] at hmem
        · simp only [hraw, if_false, ite_false] at hmem
          unfold try_with_suspended_allocation_group at hmem
          by_cases hs : susp
          · simp [hs] at hmem
          · rw [if_neg hs, List.mem_singleton] at hmem
            injection hmem with h1 h2 h3 h4 h5
            exact ⟨htr, hraw, by simp at hs; exact hs, h4, h5, h1, h2⟩
      · simp [htr] at hmem

/-- Witness for C10 at a concrete call (object pointer 16, layout (5, 4),
header raw id 7, tracker registered, not suspended, active group 3): the
callback fired with source 7 and current group 3, and all the conditions
hold. -/
theorem dealloc_tracking_condition_witness :
    true = true ∧ (7 : Nat) ≠ 0 ∧ false = false ∧ (7 : Nat) = 7 ∧
      (some 3 : Option Nat) = some 3 ∧ (16 : Nat) = 16 ∧ (5 : Nat) = 5 :=
  dealloc_tracking_condition 16 5 4 7 true false (some 3)
    [DeallocEvent.free 8 16 8, DeallocEvent.deallocated 16 5 16 7 (some 3)]
    (by rfl) 16 5 16 7 (some 3) (by simp)
